import Mathlib

/-!
Snake_ncurses: the simulation core of `snake.c`.

A shallow embedding of `fruits`, `input`, `move_snake`, `check_collision`,
`grow_snake`, `logic` and the game loop of `main` from `src/snake.c`.

Modelling conventions

* A C `int` is a Lean `Int`.  Signed overflow is undefined in C and is not
  modelled; coordinates, scores and lengths of a game stay far away from it.
* `Point snake[]` is a map from the index to the `Point` stored there.  The
  map is total: an access at an index outside `0 .. LENGTH_SNAKE-1` (undefined
  in C) reads or writes the cell the map has at that index.
* `constants.h` is not part of the sources; `WIDTH`, `HEIGHT` and
  `LENGTH_SNAKE` are parameters.
* `rand()` and `getch()` are the two sources of input: the values `rand`
  returns are arguments, the pending key codes are a list.
-/

namespace Snake

/-- The `Point` struct of `point.h`: `x` is the row, `y` the column. -/
structure Point where
  x : Int
  y : Int
  deriving DecidableEq

/-- The array `Point snake[]`, seen through the pointer the functions get. -/
abbrev Body := Int → Point

/-- The assignment `snake[i] = p`. -/
def store (snake : Body) (i : Int) (p : Point) : Body :=
  fun j => if j = i then p else snake j

/-- An array holding the given points from index 0 on, zero elsewhere
(`Point snake[LENGTH_SNAKE] = {0}` followed by assignments). -/
def ofList : List Point → Body
  | [] => fun _ => ⟨0, 0⟩
  | p :: ps => fun j => if j = 0 then p else ofList ps (j - 1)

/-- The function `fruits` (snake.c 35-39); `r1` and `r2` are the values of the
two calls of `rand()`, `%` is the truncating remainder of C.  The result is
`(fruitx, fruity)`. -/
def fruits (WIDTH HEIGHT : Int) (r1 r2 : Int) : Int × Int :=
  (Int.tmod r1 (WIDTH - 2) + 1, Int.tmod r2 (HEIGHT - 2) + 1)

/-- The loop `for (i = 0; i < length; i++) snake[i] = snake[i+1];` of
`move_snake`: `k` iterations are left, the next one is at index `i`. -/
def move_shift : Nat → Int → Body → Body
  | 0, _, snake => snake
  | k + 1, i, snake => move_shift k (i + 1) (store snake i (snake (i + 1)))

/-- The function `move_snake` (snake.c 116-143).  Its loop runs for
`i = 0 .. length-1`, that is `length.toNat` times (not at all when
`length <= 0`); the last pass reads `snake[length]`. -/
def move_snake (snake : Body) (length : Int) (flag : Int) : Body :=
  let temp := snake (length - 1)
  let snake := move_shift length.toNat 0 snake
  if flag = 1 then store snake (length - 1) ⟨temp.x + 1, temp.y⟩
  else if flag = 2 then store snake (length - 1) ⟨temp.x, temp.y - 1⟩
  else if flag = 3 then store snake (length - 1) ⟨temp.x - 1, temp.y⟩
  else if flag = 4 then store snake (length - 1) ⟨temp.x, temp.y + 1⟩
  else snake

/-- The loop of `check_collision` (snake.c 161-165): `k` iterations are left,
the next one compares the head with index `i`; a match returns 1 at once, the
end of the loop falls through to `return 0`. -/
def self_scan (snake : Body) (length : Int) : Nat → Int → Int
  | 0, _ => 0
  | k + 1, i =>
    if (snake (length - 1)).x = (snake i).x ∧ (snake (length - 1)).y = (snake i).y then 1
    else self_scan snake length k (i + 1)

/-- The function `check_collision` (snake.c 156-167).  Its loop runs for
`i = 0 .. length-2`, at most `(length - 1).toNat` times. -/
def check_collision (WIDTH HEIGHT : Int) (snake : Body) (length : Int) : Int :=
  if (snake (length - 1)).x ≤ 0 ∨ (snake (length - 1)).x ≥ HEIGHT - 1
      ∨ (snake (length - 1)).y ≤ 0 ∨ (snake (length - 1)).y ≥ WIDTH - 1 then 2
  else self_scan snake length (length - 1).toNat 0

/-- The arguments of `grow_snake` and `logic` that live in `main`: the array
and the variables `length`, `gameover`, `score`, `fruitx`, `fruity`. -/
structure Game where
  snake : Body
  length : Int
  gameover : Int
  score : Int
  fruitx : Int
  fruity : Int

/-- The loop `for (i = *length; i > 0; i--) snake[i] = snake[i-1];` of
`grow_snake`: `k` iterations are left, the next one writes index `i`. -/
def grow_shift : Nat → Int → Body → Body
  | 0, _, snake => snake
  | k + 1, i, snake => grow_shift k (i - 1) (store snake i (snake (i - 1)))

/-- The function `grow_snake` (snake.c 181-191); `r1`, `r2` are the values of
`rand()` that its call of `fruits` consumes.  Its loop runs for
`i = length .. 1`, that is `length.toNat` times; the first pass writes
`snake[length]`.  `gameover` is not among its
arguments and stays as it is. -/
def grow_snake (WIDTH HEIGHT : Int) (r1 r2 : Int) (g : Game) : Game :=
  let old := g.snake 0
  let f := fruits WIDTH HEIGHT r1 r2
  let score := g.score + 5
  let snake := grow_shift g.length.toNat g.length g.snake
  let snake := store snake 0 old
  { g with snake := snake, length := g.length + 1, score := score,
           fruitx := f.1, fruity := f.2 }

/-- The `struct timespec` handed to `nanosleep`. -/
structure Timespec where
  tv_sec : Int
  tv_nsec : Int
  deriving DecidableEq

/-- The function `logic` (snake.c 208-238).  The result is the `timespec` it
sleeps for, and the variables of `main` after the call. -/
def logic (WIDTH HEIGHT : Int) (flag : Int) (r1 r2 : Int) (g : Game) : Timespec × Game :=
  let ts : Timespec := ⟨0, 250000000⟩
  let ts : Timespec :=
    if g.score ≥ 25 then { ts with tv_nsec := 200000000 }
    else if g.score ≥ 50 then { ts with tv_nsec := 150000000 }
    else if g.score ≥ 75 then { ts with tv_nsec := 100000000 }
    else ts
  if flag = 0 then (ts, g)
  else
    let g : Game := { g with snake := move_snake g.snake g.length flag }
    let g : Game := { g with gameover := check_collision WIDTH HEIGHT g.snake g.length }
    if g.gameover ≠ 0 then (ts, g)
    else
      let g : Game :=
        if (g.snake (g.length - 1)).x = g.fruitx ∧ (g.snake (g.length - 1)).y = g.fruity then
          grow_snake WIDTH HEIGHT r1 r2 g
        else g
      let g : Game := if g.score = 100 then { g with gameover := -1 } else g
      (ts, g)

/-- The call `getch()` under `timeout(0)`: the next pending key code, or `ERR`
(-1) when no key is pending. -/
def getch : List Int → Int × List Int
  | [] => (-1, [])
  | c :: cs => (c, cs)

/-- The function `input` (snake.c 61-99): the flag after the call and the key
codes still pending.  27 is ESC, 91 is `[`, 65 to 68 are `A` to `D`, 120 and
88 are `x` and `X`. -/
def input (flag : Int) (keys : List Int) : Int × List Int :=
  let c1 := getch keys
  if c1.1 = 27 then
    let c2 := getch c1.2
    if c2.1 = 91 then
      let c3 := getch c2.2
      if c3.1 = 65 then (if flag ≠ 1 then 3 else flag, c3.2)
      else if c3.1 = 66 then (if flag ≠ 3 then 1 else flag, c3.2)
      else if c3.1 = 67 then (if flag ≠ 2 then 4 else flag, c3.2)
      else if c3.1 = 68 then (if flag ≠ 4 then 2 else flag, c3.2)
      else (flag, c3.2)
    else (flag, c2.2)
  else if c1.1 = 120 ∨ c1.1 = 88 then (-1, c1.2)
  else (flag, c1.2)

/-- The variables of `main` that its first loop carries, with the keys typed
but not yet read. -/
structure Prog where
  flag : Int
  pending : List Int
  game : Game

/-- What one pass of the first loop of `main` takes from outside: the key
codes typed since the previous pass, and the two values `rand()` would return
if the pass grows the snake. -/
structure Tick where
  keys : List Int
  r1 : Int
  r2 : Int

/-- The start of `main` (snake.c 267-285): a zeroed array, the first fruit
from two values of `rand()`, the snake of length 1 at
`(WIDTH / 2, HEIGHT / 2)`. -/
def main_init (WIDTH HEIGHT : Int) (r1 r2 : Int) : Prog :=
  let f := fruits WIDTH HEIGHT r1 r2
  { flag := 0
    pending := []
    game :=
      { snake := store (fun _ => ⟨0, 0⟩) 0 ⟨Int.tdiv WIDTH 2, Int.tdiv HEIGHT 2⟩
        length := 1
        gameover := 0
        score := 0
        fruitx := f.1
        fruity := f.2 } }

/-- The first loop of `main` (snake.c 286-294) run on the given passes:
`while (gameover == 0) { draw; input(&flag); if (flag == -1) break; logic }`.
The result is the state when the loop is left or the passes are used up. -/
def main_loop (WIDTH HEIGHT : Int) : List Tick → Prog → Prog
  | [], p => p
  | t :: ts, p =>
    if p.game.gameover = 0 then
      let i := input p.flag (p.pending ++ t.keys)
      if i.1 = -1 then { p with flag := i.1, pending := i.2 }
      else
        main_loop WIDTH HEIGHT ts
          { flag := i.1, pending := i.2, game := (logic WIDTH HEIGHT i.1 t.r1 t.r2 p.game).2 }
    else p

/-- The calls of `logic` that the first loop of `main` makes, with the flag
that `input` leaves given for each pass as `(flag, r1, r2)`: a pass is made
only while `gameover == 0`, and the flag -1 leaves the loop. -/
def logic_ticks (WIDTH HEIGHT : Int) : List (Int × Int × Int) → Game → Game
  | [], g => g
  | t :: ts, g =>
    if g.gameover = 0 then
      if t.1 = -1 then g
      else logic_ticks WIDTH HEIGHT ts (logic WIDTH HEIGHT t.1 t.2.1 t.2.2 g).2
    else g

/-! ## The three array loops in closed form -/

theorem store_apply (snake : Body) (i j : Int) (p : Point) :
    store snake i p j = if j = i then p else snake j := rfl

/-- After `k` iterations from index `i`, the cells `i .. i+k-1` hold what their
right neighbour held before the loop; every other cell is as it was. -/
theorem move_shift_apply (k : Nat) (i : Int) (snake : Body) (j : Int) :
    move_shift k i snake j = if i ≤ j ∧ j < i + k then snake (j + 1) else snake j := by
  induction k generalizing i snake with
  | zero =>
    have : ¬ (i ≤ j ∧ j < i + ((0 : Nat) : Int)) := by omega
    simp only [move_shift, if_neg this]
  | succ k ih =>
    simp only [move_shift, ih, store_apply]
    by_cases h1 : i + 1 ≤ j ∧ j < i + 1 + (k : Int)
    · have h2 : i ≤ j ∧ j < i + ((k + 1 : Nat) : Int) := by omega
      have h3 : ¬ (j + 1 = i) := by omega
      rw [if_pos h1, if_pos h2, if_neg h3]
    · rw [if_neg h1]
      by_cases h4 : j = i
      · have h2 : i ≤ j ∧ j < i + ((k + 1 : Nat) : Int) := by omega
        rw [if_pos h4, if_pos h2, h4]
      · have h2 : ¬ (i ≤ j ∧ j < i + ((k + 1 : Nat) : Int)) := by omega
        rw [if_neg h4, if_neg h2]

/-- After `k` iterations down from index `i`, the cells `i-k+1 .. i` hold what
their left neighbour held before the loop; every other cell is as it was. -/
theorem grow_shift_apply (k : Nat) (i : Int) (snake : Body) (j : Int) :
    grow_shift k i snake j = if i - k < j ∧ j ≤ i then snake (j - 1) else snake j := by
  induction k generalizing i snake with
  | zero =>
    have : ¬ (i - ((0 : Nat) : Int) < j ∧ j ≤ i) := by omega
    simp only [grow_shift, if_neg this]
  | succ k ih =>
    simp only [grow_shift, ih, store_apply]
    by_cases h1 : i - 1 - (k : Int) < j ∧ j ≤ i - 1
    · have h2 : i - ((k + 1 : Nat) : Int) < j ∧ j ≤ i := by omega
      have h3 : ¬ (j - 1 = i) := by omega
      rw [if_pos h1, if_pos h2, if_neg h3]
    · rw [if_neg h1]
      by_cases h4 : j = i
      · have h2 : i - ((k + 1 : Nat) : Int) < j ∧ j ≤ i := by omega
        rw [if_pos h4, if_pos h2, h4]
      · have h2 : ¬ (i - ((k + 1 : Nat) : Int) < j ∧ j ≤ i) := by omega
        rw [if_neg h4, if_neg h2]

/-- The scan returns 0 or 1. -/
theorem self_scan_range (snake : Body) (length : Int) (k : Nat) (i : Int) :
    self_scan snake length k i = 0 ∨ self_scan snake length k i = 1 := by
  induction k generalizing i with
  | zero => exact Or.inl rfl
  | succ k ih =>
    simp only [self_scan]
    split
    · exact Or.inr rfl
    · exact ih (i + 1)

/-- The scan returns 1 exactly when one of the `k` cells from `i` on holds the
point of the head. -/
theorem self_scan_eq_one (snake : Body) (length : Int) (k : Nat) (i : Int) :
    self_scan snake length k i = 1 ↔
      ∃ j, i ≤ j ∧ j < i + k ∧
        (snake j).x = (snake (length - 1)).x ∧ (snake j).y = (snake (length - 1)).y := by
  induction k generalizing i with
  | zero =>
    simp only [self_scan]
    constructor
    · intro h; exact absurd h (by decide)
    · rintro ⟨j, h1, h2, _⟩; omega
  | succ k ih =>
    simp only [self_scan]
    split
    · rename_i hi
      constructor
      · intro _
        exact ⟨i, le_refl i, by omega, hi.1.symm, hi.2.symm⟩
      · intro _; rfl
    · rename_i hi
      rw [ih (i + 1)]
      constructor
      · rintro ⟨j, h1, h2, h3⟩
        exact ⟨j, by omega, by omega, h3⟩
      · rintro ⟨j, h1, h2, h3⟩
        have hne : j ≠ i := by
          rintro rfl
          exact hi ⟨h3.1.symm, h3.2.symm⟩
        exact ⟨j, by omega, by omega, h3⟩

/-- The cells below the head after `move_snake`: the switch writes index
`length - 1` only. -/
theorem move_snake_below_head (snake : Body) (length flag i : Int)
    (h0 : 0 ≤ i) (h1 : i < length - 1) :
    move_snake snake length flag i = snake (i + 1) := by
  have hne : ¬ (i = length - 1) := by omega
  have hin : (0 : Int) ≤ i ∧ i < 0 + (length.toNat : Int) := by omega
  simp only [move_snake]
  split_ifs <;> simp only [store_apply, if_neg hne, move_shift_apply, if_pos hin]

/-- The head after `move_snake` with a direction flag: the point the head held
before the call, moved one cell. -/
theorem move_snake_head (snake : Body) (length flag : Int) :
    move_snake snake length flag (length - 1) =
      if flag = 1 then ⟨(snake (length - 1)).x + 1, (snake (length - 1)).y⟩
      else if flag = 2 then ⟨(snake (length - 1)).x, (snake (length - 1)).y - 1⟩
      else if flag = 3 then ⟨(snake (length - 1)).x - 1, (snake (length - 1)).y⟩
      else if flag = 4 then ⟨(snake (length - 1)).x, (snake (length - 1)).y + 1⟩
      else move_shift length.toNat 0 snake (length - 1) := by
  simp only [move_snake]
  split_ifs <;> simp only [store_apply, if_true]

/-- The cells `1 .. length` after `grow_snake` hold what their left neighbour
held before; cell 0 keeps its point. -/
theorem grow_snake_cells (WIDTH HEIGHT r1 r2 : Int) (g : Game) (i : Int) :
    (grow_snake WIDTH HEIGHT r1 r2 g).snake i =
      if i = 0 then g.snake 0
      else if 0 < i ∧ i ≤ g.length then g.snake (i - 1) else g.snake i := by
  simp only [grow_snake, store_apply, grow_shift_apply]
  by_cases h0 : i = 0
  · simp only [if_pos h0]
  · simp only [if_neg h0]
    by_cases h1 : 0 < i ∧ i ≤ g.length
    · have h2 : g.length - (g.length.toNat : Int) < i ∧ i ≤ g.length := by omega
      rw [if_pos h1, if_pos h2]
    · have h2 : ¬ (g.length - (g.length.toNat : Int) < i ∧ i ≤ g.length) := by omega
      rw [if_neg h1, if_neg h2]

/-- What `fruits` does guarantee: `fruitx` lies in `1 .. WIDTH-2` and `fruity`
in `1 .. HEIGHT-2`. -/
theorem fruits_range (WIDTH HEIGHT r1 r2 : Int) (hw : 3 ≤ WIDTH) (hh : 3 ≤ HEIGHT)
    (h1 : 0 ≤ r1) (h2 : 0 ≤ r2) :
    0 < (fruits WIDTH HEIGHT r1 r2).1 ∧ (fruits WIDTH HEIGHT r1 r2).1 < WIDTH - 1 ∧
    0 < (fruits WIDTH HEIGHT r1 r2).2 ∧ (fruits WIDTH HEIGHT r1 r2).2 < HEIGHT - 1 := by
  have e1 : Int.tmod r1 (WIDTH - 2) = r1 % (WIDTH - 2) :=
    Int.tmod_eq_emod h1 (by omega)
  have e2 : Int.tmod r2 (HEIGHT - 2) = r2 % (HEIGHT - 2) :=
    Int.tmod_eq_emod h2 (by omega)
  have a1 := Int.emod_nonneg r1 (show WIDTH - 2 ≠ 0 by omega)
  have a2 := Int.emod_lt_of_pos r1 (show 0 < WIDTH - 2 by omega)
  have b1 := Int.emod_nonneg r2 (show HEIGHT - 2 ≠ 0 by omega)
  have b2 := Int.emod_lt_of_pos r2 (show 0 < HEIGHT - 2 by omega)
  simp only [fruits, e1, e2]
  omega

/-- The `timespec` of `logic`: 200 ms from score 25 on, 250 ms below; the two
later branches of the `else if` chain are never taken. -/
theorem logic_delay (WIDTH HEIGHT flag r1 r2 : Int) (g : Game) :
    (logic WIDTH HEIGHT flag r1 r2 g).1 =
      ⟨0, if g.score ≥ 25 then 200000000 else 250000000⟩ := by
  have h50 : ¬ g.score ≥ 25 → ¬ g.score ≥ 50 := by omega
  have h75 : ¬ g.score ≥ 25 → ¬ g.score ≥ 75 := by omega
  simp only [logic]
  by_cases h : g.score ≥ 25
  · simp only [if_pos h]
    split_ifs <;> rfl
  · simp only [if_neg h, if_neg (h50 h), if_neg (h75 h)]
    split_ifs <;> rfl

/-- A call of `logic` with flag 0 returns the variables as they were. -/
theorem logic_flag_zero (WIDTH HEIGHT r1 r2 : Int) (g : Game) :
    (logic WIDTH HEIGHT 0 r1 r2 g).2 = g := by
  simp only [logic, if_true]

/-- A call of `logic` with a non-zero flag whose moved snake collides: the
array is the moved one, `gameover` the collision code, the rest is kept. -/
theorem logic_collision (WIDTH HEIGHT flag r1 r2 : Int) (g : Game) (hf : flag ≠ 0)
    (hc : check_collision WIDTH HEIGHT (move_snake g.snake g.length flag) g.length ≠ 0) :
    (logic WIDTH HEIGHT flag r1 r2 g).2 =
      { g with snake := move_snake g.snake g.length flag,
               gameover := check_collision WIDTH HEIGHT (move_snake g.snake g.length flag)
                 g.length } := by
  simp only [logic, if_neg hf, ne_eq, hc, not_false_eq_true, if_true]

/-- A call of `logic` with a non-zero flag whose moved snake does not collide
and whose head is off the fruit. -/
theorem logic_plain_move (WIDTH HEIGHT flag r1 r2 : Int) (g : Game) (hf : flag ≠ 0)
    (hc : check_collision WIDTH HEIGHT (move_snake g.snake g.length flag) g.length = 0)
    (hfruit : ¬ ((move_snake g.snake g.length flag (g.length - 1)).x = g.fruitx ∧
      (move_snake g.snake g.length flag (g.length - 1)).y = g.fruity)) :
    (logic WIDTH HEIGHT flag r1 r2 g).2 =
      if g.score = 100 then
        { g with snake := move_snake g.snake g.length flag, gameover := -1 }
      else { g with snake := move_snake g.snake g.length flag, gameover := 0 } := by
  simp only [logic, if_neg hf, ne_eq, hc, not_true_eq_false, if_false, if_neg hfruit]

/-- A call of `logic` with a non-zero flag whose moved snake does not collide
and whose head is on the fruit. -/
theorem logic_eat (WIDTH HEIGHT flag r1 r2 : Int) (g : Game) (hf : flag ≠ 0)
    (hc : check_collision WIDTH HEIGHT (move_snake g.snake g.length flag) g.length = 0)
    (hfruit : (move_snake g.snake g.length flag (g.length - 1)).x = g.fruitx ∧
      (move_snake g.snake g.length flag (g.length - 1)).y = g.fruity) :
    (logic WIDTH HEIGHT flag r1 r2 g).2 =
      if g.score + 5 = 100 then
        { grow_snake WIDTH HEIGHT r1 r2
            { g with snake := move_snake g.snake g.length flag, gameover := 0 } with
          gameover := -1 }
      else
        grow_snake WIDTH HEIGHT r1 r2
          { g with snake := move_snake g.snake g.length flag, gameover := 0 } := by
  simp only [logic, if_neg hf, ne_eq, hc, not_true_eq_false, if_false, if_pos hfruit]
  split_ifs <;> first | rfl | (exfalso; simp_all [grow_snake])

/-- One call of `logic` on a running game keeps the count: the length is at
least 1, the score is five times the number of segments gained and at most
100, and a game still running has not reached 100. -/
theorem logic_keeps_count (WIDTH HEIGHT flag r1 r2 : Int) (g : Game)
    (hrun : g.gameover = 0)
    (hinv : 1 ≤ g.length ∧ 5 * (g.length - 1) = g.score ∧ g.score ≤ 100 ∧
      (g.gameover = 0 → g.score ≠ 100)) :
    1 ≤ (logic WIDTH HEIGHT flag r1 r2 g).2.length ∧
    5 * ((logic WIDTH HEIGHT flag r1 r2 g).2.length - 1) =
      (logic WIDTH HEIGHT flag r1 r2 g).2.score ∧
    (logic WIDTH HEIGHT flag r1 r2 g).2.score ≤ 100 ∧
    ((logic WIDTH HEIGHT flag r1 r2 g).2.gameover = 0 →
      (logic WIDTH HEIGHT flag r1 r2 g).2.score ≠ 100) := by
  obtain ⟨hl, hs, hle, hne⟩ := hinv
  have hne100 : g.score ≠ 100 := hne hrun
  by_cases hf : flag = 0
  · subst hf
    rw [logic_flag_zero]
    exact ⟨hl, hs, hle, hne⟩
  · by_cases hc :
      check_collision WIDTH HEIGHT (move_snake g.snake g.length flag) g.length = 0
    · by_cases hfruit : (move_snake g.snake g.length flag (g.length - 1)).x = g.fruitx ∧
          (move_snake g.snake g.length flag (g.length - 1)).y = g.fruity
      · rw [logic_eat WIDTH HEIGHT flag r1 r2 g hf hc hfruit]
        by_cases h100 : g.score + 5 = 100
        · rw [if_pos h100]
          refine ⟨?_, ?_, ?_, ?_⟩
          · show 1 ≤ g.length + 1
            omega
          · show 5 * (g.length + 1 - 1) = g.score + 5
            omega
          · show g.score + 5 ≤ 100
            omega
          · intro h
            exact absurd (show (-1 : Int) = 0 from h) (by decide)
        · rw [if_neg h100]
          refine ⟨?_, ?_, ?_, ?_⟩
          · show 1 ≤ g.length + 1
            omega
          · show 5 * (g.length + 1 - 1) = g.score + 5
            omega
          · show g.score + 5 ≤ 100
            omega
          · intro _
            exact h100
      · rw [logic_plain_move WIDTH HEIGHT flag r1 r2 g hf hc hfruit, if_neg hne100]
        exact ⟨hl, hs, hle, fun _ => hne100⟩
    · rw [logic_collision WIDTH HEIGHT flag r1 r2 g hf hc]
      exact ⟨hl, hs, hle, fun h => absurd h hc⟩

/-- The count kept by `logic` holds after any number of passes of the loop of
`main`. -/
theorem main_loop_keeps_count (WIDTH HEIGHT : Int) (ticks : List Tick) (p : Prog)
    (hinv : 1 ≤ p.game.length ∧ 5 * (p.game.length - 1) = p.game.score ∧
      p.game.score ≤ 100 ∧ (p.game.gameover = 0 → p.game.score ≠ 100)) :
    1 ≤ (main_loop WIDTH HEIGHT ticks p).game.length ∧
    5 * ((main_loop WIDTH HEIGHT ticks p).game.length - 1) =
      (main_loop WIDTH HEIGHT ticks p).game.score ∧
    (main_loop WIDTH HEIGHT ticks p).game.score ≤ 100 ∧
    ((main_loop WIDTH HEIGHT ticks p).game.gameover = 0 →
      (main_loop WIDTH HEIGHT ticks p).game.score ≠ 100) := by
  induction ticks generalizing p with
  | nil => exact hinv
  | cons t ts ih =>
    simp only [main_loop]
    by_cases hrun : p.game.gameover = 0
    · rw [if_pos hrun]
      by_cases hq : (input p.flag (p.pending ++ t.keys)).1 = -1
      · rw [if_pos hq]
        exact hinv
      · rw [if_neg hq]
        exact ih _ (logic_keeps_count WIDTH HEIGHT _ t.r1 t.r2 p.game hrun hinv)
    · rw [if_neg hrun]
      exact hinv

/-- The count kept by `logic` holds after any number of passes, whatever the
flags are. -/
theorem logic_ticks_keeps_count (WIDTH HEIGHT : Int) (ticks : List (Int × Int × Int))
    (g : Game)
    (hinv : 1 ≤ g.length ∧ 5 * (g.length - 1) = g.score ∧ g.score ≤ 100 ∧
      (g.gameover = 0 → g.score ≠ 100)) :
    1 ≤ (logic_ticks WIDTH HEIGHT ticks g).length ∧
    5 * ((logic_ticks WIDTH HEIGHT ticks g).length - 1) =
      (logic_ticks WIDTH HEIGHT ticks g).score ∧
    (logic_ticks WIDTH HEIGHT ticks g).score ≤ 100 ∧
    ((logic_ticks WIDTH HEIGHT ticks g).gameover = 0 →
      (logic_ticks WIDTH HEIGHT ticks g).score ≠ 100) := by
  induction ticks generalizing g with
  | nil => exact hinv
  | cons t ts ih =>
    simp only [logic_ticks]
    by_cases hrun : g.gameover = 0
    · rw [if_pos hrun]
      by_cases hq : t.1 = -1
      · rw [if_pos hq]
        exact hinv
      · rw [if_neg hq]
        exact ih _ (logic_keeps_count WIDTH HEIGHT t.1 t.2.1 t.2.2 g hrun hinv)
    · rw [if_neg hrun]
      exact hinv

/-- The variables `main` starts its loop with satisfy the count. -/
theorem main_init_count (WIDTH HEIGHT r1 r2 : Int) :
    1 ≤ (main_init WIDTH HEIGHT r1 r2).game.length ∧
    5 * ((main_init WIDTH HEIGHT r1 r2).game.length - 1) =
      (main_init WIDTH HEIGHT r1 r2).game.score ∧
    (main_init WIDTH HEIGHT r1 r2).game.score ≤ 100 ∧
    ((main_init WIDTH HEIGHT r1 r2).game.gameover = 0 →
      (main_init WIDTH HEIGHT r1 r2).game.score ≠ 100) := by
  refine ⟨?_, ?_, ?_, ?_⟩
  · show (1 : Int) ≤ 1
    decide
  · show 5 * ((1 : Int) - 1) = 0
    decide
  · show (0 : Int) ≤ 100
    decide
  · intro _
    show (0 : Int) ≠ 100
    decide

/-! ## The claims -/

/-- C1. `check_collision` on a snake of length at least 1: the result is 2
exactly when the head `snake[length-1]` has its row `<= 0` or `>= HEIGHT-1` or
its column `<= 0` or `>= WIDTH-1`; off the border it is 1 exactly when a cell
of index `i < length-1` holds the row and column of the head; off the border
and without such a cell it is 0.  So a head on the border that also lies on a
body segment gives 2 and not 1. -/
theorem check_collision_classifies (WIDTH HEIGHT : Int) (snake : Body) (length : Int)
    (hlen : 1 ≤ length) :
    (check_collision WIDTH HEIGHT snake length = 2 ↔
      ((snake (length - 1)).x ≤ 0 ∨ (snake (length - 1)).x ≥ HEIGHT - 1
        ∨ (snake (length - 1)).y ≤ 0 ∨ (snake (length - 1)).y ≥ WIDTH - 1)) ∧
    (¬ ((snake (length - 1)).x ≤ 0 ∨ (snake (length - 1)).x ≥ HEIGHT - 1
        ∨ (snake (length - 1)).y ≤ 0 ∨ (snake (length - 1)).y ≥ WIDTH - 1) →
      (check_collision WIDTH HEIGHT snake length = 1 ↔
        ∃ i, 0 ≤ i ∧ i < length - 1 ∧
          (snake i).x = (snake (length - 1)).x ∧ (snake i).y = (snake (length - 1)).y)) ∧
    (¬ ((snake (length - 1)).x ≤ 0 ∨ (snake (length - 1)).x ≥ HEIGHT - 1
        ∨ (snake (length - 1)).y ≤ 0 ∨ (snake (length - 1)).y ≥ WIDTH - 1) →
      (¬ ∃ i, 0 ≤ i ∧ i < length - 1 ∧
          (snake i).x = (snake (length - 1)).x ∧ (snake i).y = (snake (length - 1)).y) →
      check_collision WIDTH HEIGHT snake length = 0) ∧
    (((snake (length - 1)).x ≤ 0 ∨ (snake (length - 1)).x ≥ HEIGHT - 1
        ∨ (snake (length - 1)).y ≤ 0 ∨ (snake (length - 1)).y ≥ WIDTH - 1) →
      (∃ i, 0 ≤ i ∧ i < length - 1 ∧
          (snake i).x = (snake (length - 1)).x ∧ (snake i).y = (snake (length - 1)).y) →
      check_collision WIDTH HEIGHT snake length = 2 ∧
        check_collision WIDTH HEIGHT snake length ≠ 1) := by
  have hk : (0 : Int) + (((length - 1).toNat : Nat) : Int) = length - 1 := by omega
  have hscan := self_scan_eq_one snake length (length - 1).toNat 0
  rw [hk] at hscan
  refine ⟨?_, ?_, ?_, ?_⟩
  · constructor
    · intro h
      by_contra hb
      simp only [check_collision, if_neg hb] at h
      rcases self_scan_range snake length (length - 1).toNat 0 with h0 | h1
      · rw [h0] at h; exact absurd h (by decide)
      · rw [h1] at h; exact absurd h (by decide)
    · intro hb
      simp only [check_collision, if_pos hb]
  · intro hb
    simp only [check_collision, if_neg hb]
    exact hscan
  · intro hb hno
    simp only [check_collision, if_neg hb]
    rcases self_scan_range snake length (length - 1).toNat 0 with h0 | h1
    · exact h0
    · exact absurd (hscan.mp h1) hno
  · intro hb _
    have h2 : check_collision WIDTH HEIGHT snake length = 2 := by
      simp only [check_collision, if_pos hb]
    exact ⟨h2, by rw [h2]; decide⟩

/-- A head at row 0 lying on the tail of a snake of length 3: boundary
collision, and every part of C1 read off at this snake. -/
theorem check_collision_classifies_witness :
    (1 : Int) ≤ 3 ∧
    check_collision 20 20 (ofList [⟨0, 4⟩, ⟨1, 4⟩, ⟨0, 4⟩]) 3 = 2 ∧
    check_collision 20 20 (ofList [⟨5, 5⟩, ⟨5, 6⟩, ⟨5, 5⟩]) 3 = 1 ∧
    check_collision 20 20 (ofList [⟨5, 5⟩, ⟨5, 6⟩, ⟨5, 7⟩]) 3 = 0 :=
  ⟨by decide,
   ((check_collision_classifies 20 20 (ofList [⟨0, 4⟩, ⟨1, 4⟩, ⟨0, 4⟩]) 3 (by decide)).2.2.2
      (by decide) ⟨0, by decide, by decide, by decide, by decide⟩).1,
   by decide, by decide⟩

/-- C2. After `move_snake(snake, n, flag)`, whatever the flag, every index
`i < n-1` holds the point index `i+1` held before the call; so each old
segment of index `1 .. n-1` is still in the snake, one index lower, and only
the old index 0 is dropped.  The snake `[(5,5),(5,6),(5,7)]` moved Left is
`[(5,6),(5,7),(5,6)]`. -/
theorem move_snake_shift (snake : Body) (n flag : Int) (_hn : 1 ≤ n) :
    (∀ i, 0 ≤ i → i < n - 1 → move_snake snake n flag i = snake (i + 1)) ∧
    (∀ j, 1 ≤ j → j < n →
      ∃ i, 0 ≤ i ∧ i < n - 1 ∧ move_snake snake n flag i = snake j) ∧
    (move_snake (ofList [⟨5, 5⟩, ⟨5, 6⟩, ⟨5, 7⟩]) 3 2 0 = ⟨5, 6⟩ ∧
     move_snake (ofList [⟨5, 5⟩, ⟨5, 6⟩, ⟨5, 7⟩]) 3 2 1 = ⟨5, 7⟩ ∧
     move_snake (ofList [⟨5, 5⟩, ⟨5, 6⟩, ⟨5, 7⟩]) 3 2 2 = ⟨5, 6⟩) := by
  refine ⟨fun i h0 h1 => move_snake_below_head snake n flag i h0 h1, ?_, ?_⟩
  · intro j h1 h2
    refine ⟨j - 1, by omega, by omega, ?_⟩
    rw [move_snake_below_head snake n flag (j - 1) (by omega) (by omega)]
    congr 1
    omega
  · decide

/-- The shift of C2 on a snake of length 4 moved Down: index 0 now holds the
old index 1. -/
theorem move_snake_shift_witness :
    (1 : Int) ≤ 4 ∧
    move_snake (ofList [⟨3, 3⟩, ⟨3, 4⟩, ⟨4, 4⟩, ⟨5, 4⟩]) 4 1 0 = ⟨3, 4⟩ :=
  ⟨by decide,
   (move_snake_shift (ofList [⟨3, 3⟩, ⟨3, 4⟩, ⟨4, 4⟩, ⟨5, 4⟩]) 4 1 (by decide)).1 0
      (by decide) (by decide)⟩

/-- C3, as the spec words it, fails: `[(5,5),(5,6),(5,7)]` moved Left has its
new head at `(5,6)`, one cell left of the old head `(5,7)`; one cell left of
the old tail `(5,5)` is `(5,4)`. -/
theorem move_snake_head_not_from_tail :
    move_snake (ofList [⟨5, 5⟩, ⟨5, 6⟩, ⟨5, 7⟩]) 3 2 (3 - 1) = ⟨5, 6⟩ ∧
    ofList [⟨5, 5⟩, ⟨5, 6⟩, ⟨5, 7⟩] 0 = ⟨5, 5⟩ ∧
    ¬ (move_snake (ofList [⟨5, 5⟩, ⟨5, 6⟩, ⟨5, 7⟩]) 3 2 (3 - 1) =
        ⟨(ofList [⟨5, 5⟩, ⟨5, 6⟩, ⟨5, 7⟩] 0).x, (ofList [⟨5, 5⟩, ⟨5, 6⟩, ⟨5, 7⟩] 0).y - 1⟩) := by
  decide

/-- C3, amended. For a snake of length `n >= 1` and a direction in
{Down=1, Left=2, Up=3, Right=4}, the head `snake[n-1]` after `move_snake` is
the old head (the point index `n-1` held before the call) moved one cell:
Down row+1, Left column-1, Up row-1, Right column+1, the other coordinate as
it was. -/
theorem move_snake_head_from_old_head (snake : Body) (n flag : Int) (_hn : 1 ≤ n)
    (hflag : flag = 1 ∨ flag = 2 ∨ flag = 3 ∨ flag = 4) :
    (flag = 1 → move_snake snake n flag (n - 1) = ⟨(snake (n - 1)).x + 1, (snake (n - 1)).y⟩) ∧
    (flag = 2 → move_snake snake n flag (n - 1) = ⟨(snake (n - 1)).x, (snake (n - 1)).y - 1⟩) ∧
    (flag = 3 → move_snake snake n flag (n - 1) = ⟨(snake (n - 1)).x - 1, (snake (n - 1)).y⟩) ∧
    (flag = 4 → move_snake snake n flag (n - 1) = ⟨(snake (n - 1)).x, (snake (n - 1)).y + 1⟩) := by
  refine ⟨?_, ?_, ?_, ?_⟩ <;> intro h <;> subst h <;> rw [move_snake_head] <;> rfl

/-- The amended C3 on `[(5,5),(5,6),(5,7)]` moved Left: the new head is
`(5, 7-1)`. -/
theorem move_snake_head_from_old_head_witness :
    (1 : Int) ≤ 3 ∧ ((2 : Int) = 1 ∨ (2 : Int) = 2 ∨ (2 : Int) = 3 ∨ (2 : Int) = 4) ∧
    move_snake (ofList [⟨5, 5⟩, ⟨5, 6⟩, ⟨5, 7⟩]) 3 2 (3 - 1) =
      ⟨(ofList [⟨5, 5⟩, ⟨5, 6⟩, ⟨5, 7⟩] (3 - 1)).x, (ofList [⟨5, 5⟩, ⟨5, 6⟩, ⟨5, 7⟩] (3 - 1)).y - 1⟩ :=
  ⟨by decide, by decide,
   (move_snake_head_from_old_head (ofList [⟨5, 5⟩, ⟨5, 6⟩, ⟨5, 7⟩]) 3 2 (by decide)
      (by decide)).2.1 rfl⟩

/-- C4. `grow_snake` on a snake of length `n >= 1` and a score `s`: the length
becomes `n+1`, the score `s+5`; indices 0 and 1 both hold the old tail
`snake[0]`, and every index `1 <= i <= n` holds what index `i-1` held, so the
head, now at index `n`, is the old head and the order of the segments is
kept. -/
theorem grow_snake_effect (WIDTH HEIGHT r1 r2 : Int) (g : Game) (hn : 1 ≤ g.length) :
    (grow_snake WIDTH HEIGHT r1 r2 g).length = g.length + 1 ∧
    (grow_snake WIDTH HEIGHT r1 r2 g).score = g.score + 5 ∧
    (grow_snake WIDTH HEIGHT r1 r2 g).snake 0 = g.snake 0 ∧
    (grow_snake WIDTH HEIGHT r1 r2 g).snake 1 = g.snake 0 ∧
    (∀ i, 1 ≤ i → i ≤ g.length →
      (grow_snake WIDTH HEIGHT r1 r2 g).snake i = g.snake (i - 1)) ∧
    (grow_snake WIDTH HEIGHT r1 r2 g).snake ((grow_snake WIDTH HEIGHT r1 r2 g).length - 1) =
      g.snake (g.length - 1) := by
  have hcell : ∀ i, 1 ≤ i → i ≤ g.length →
      (grow_snake WIDTH HEIGHT r1 r2 g).snake i = g.snake (i - 1) := by
    intro i h1 h2
    rw [grow_snake_cells, if_neg (by omega), if_pos ⟨by omega, h2⟩]
  refine ⟨rfl, rfl, ?_, ?_, hcell, ?_⟩
  · rw [grow_snake_cells, if_pos rfl]
  · rw [hcell 1 (le_refl 1) hn]; rfl
  · have hl : (grow_snake WIDTH HEIGHT r1 r2 g).length - 1 = g.length := by
      show g.length + 1 - 1 = g.length
      omega
    rw [hl, hcell g.length hn (le_refl _)]

/-- C4 on the snake `[(5,5),(5,6),(5,7)]` with score 10: length 4, score 15,
body `[(5,5),(5,5),(5,6),(5,7)]`. -/
theorem grow_snake_effect_witness :
    (1 : Int) ≤ 3 ∧
    (grow_snake 20 20 0 0 ⟨ofList [⟨5, 5⟩, ⟨5, 6⟩, ⟨5, 7⟩], 3, 0, 10, 5, 7⟩).length = 4 ∧
    (grow_snake 20 20 0 0 ⟨ofList [⟨5, 5⟩, ⟨5, 6⟩, ⟨5, 7⟩], 3, 0, 10, 5, 7⟩).score = 15 ∧
    (grow_snake 20 20 0 0 ⟨ofList [⟨5, 5⟩, ⟨5, 6⟩, ⟨5, 7⟩], 3, 0, 10, 5, 7⟩).snake 0 = ⟨5, 5⟩ ∧
    (grow_snake 20 20 0 0 ⟨ofList [⟨5, 5⟩, ⟨5, 6⟩, ⟨5, 7⟩], 3, 0, 10, 5, 7⟩).snake 1 = ⟨5, 5⟩ ∧
    (grow_snake 20 20 0 0 ⟨ofList [⟨5, 5⟩, ⟨5, 6⟩, ⟨5, 7⟩], 3, 0, 10, 5, 7⟩).snake 2 = ⟨5, 6⟩ ∧
    (grow_snake 20 20 0 0 ⟨ofList [⟨5, 5⟩, ⟨5, 6⟩, ⟨5, 7⟩], 3, 0, 10, 5, 7⟩).snake 3 = ⟨5, 7⟩ :=
  have h := grow_snake_effect 20 20 0 0 ⟨ofList [⟨5, 5⟩, ⟨5, 6⟩, ⟨5, 7⟩], 3, 0, 10, 5, 7⟩
    (by decide)
  ⟨by decide, h.1, h.2.1, h.2.2.1, h.2.2.2.1, by decide, by decide⟩

/-- C5 fails on a grid wider than high. With `WIDTH = 40`, `HEIGHT = 20` and
`rand()` returning 18 and 0, `fruits` writes `fruitx = 19`, `fruity = 1`:
`fruitx` is taken modulo `WIDTH-2` but `check_collision` compares the row `.x`
with `HEIGHT-1 = 19`, so a head on this fruit is a boundary collision. -/
theorem fruits_on_border_ring :
    fruits 40 20 18 0 = (19, 1) ∧
    ¬ ((fruits 40 20 18 0).1 < 20 - 1) ∧
    check_collision 40 20
      (ofList [⟨(fruits 40 20 18 0).1, (fruits 40 20 18 0).2⟩]) 1 = 2 := by
  decide

/-- C6 fails from score 50 on. `logic` tests `score >= 25` first, so the
branches for 50 and 75 are never reached: at score 50 and at score 75 the
`timespec` is `{0, 200000000}`, not 150 ms and 100 ms. -/
theorem logic_delay_upper_tiers :
    (logic 20 20 0 0 0 ⟨ofList [⟨10, 10⟩], 1, 0, 50, 3, 3⟩).1 = ⟨0, 200000000⟩ ∧
    (logic 20 20 0 0 0 ⟨ofList [⟨10, 10⟩], 1, 0, 75, 3, 3⟩).1 = ⟨0, 200000000⟩ ∧
    (logic 20 20 0 0 0 ⟨ofList [⟨10, 10⟩], 1, 0, 50, 3, 3⟩).1.tv_nsec ≠ 150000000 ∧
    (logic 20 20 0 0 0 ⟨ofList [⟨10, 10⟩], 1, 0, 75, 3, 3⟩).1.tv_nsec ≠ 100000000 := by
  decide

/-- C7. A call of `logic` with a direction in {1,2,3,4} whose moved snake has
no collision: the score after the growth step is `score + 5` when the moved
head is on the fruit and `score` otherwise; `gameover` ends as -1 exactly when
that score is 100, and as 0 otherwise.  In particular with score 95 and the
moved head on the fruit the score becomes 100 and `gameover` -1. -/
theorem logic_win_iff (WIDTH HEIGHT flag r1 r2 : Int) (g : Game)
    (hflag : flag = 1 ∨ flag = 2 ∨ flag = 3 ∨ flag = 4)
    (hc : check_collision WIDTH HEIGHT (move_snake g.snake g.length flag) g.length = 0) :
    (logic WIDTH HEIGHT flag r1 r2 g).2.score =
      (if (move_snake g.snake g.length flag (g.length - 1)).x = g.fruitx ∧
          (move_snake g.snake g.length flag (g.length - 1)).y = g.fruity
        then g.score + 5 else g.score) ∧
    ((logic WIDTH HEIGHT flag r1 r2 g).2.gameover = -1 ↔
      (logic WIDTH HEIGHT flag r1 r2 g).2.score = 100) ∧
    ((logic WIDTH HEIGHT flag r1 r2 g).2.score ≠ 100 →
      (logic WIDTH HEIGHT flag r1 r2 g).2.gameover = 0) ∧
    (g.score = 95 →
      ((move_snake g.snake g.length flag (g.length - 1)).x = g.fruitx ∧
        (move_snake g.snake g.length flag (g.length - 1)).y = g.fruity) →
      (logic WIDTH HEIGHT flag r1 r2 g).2.score = 100 ∧
        (logic WIDTH HEIGHT flag r1 r2 g).2.gameover = -1) := by
  have hf : flag ≠ 0 := by omega
  by_cases hfruit : (move_snake g.snake g.length flag (g.length - 1)).x = g.fruitx ∧
      (move_snake g.snake g.length flag (g.length - 1)).y = g.fruity
  · rw [logic_eat WIDTH HEIGHT flag r1 r2 g hf hc hfruit, if_pos hfruit]
    by_cases h100 : g.score + 5 = 100
    · rw [if_pos h100]
      refine ⟨rfl, ⟨fun _ => h100, fun _ => rfl⟩, fun h => absurd h100 h, fun _ _ => ⟨h100, rfl⟩⟩
    · rw [if_neg h100]
      refine ⟨rfl, ⟨fun h => absurd (show (0 : Int) = -1 from h) (by decide),
        fun h => absurd h h100⟩, fun _ => rfl, ?_⟩
      intro h95 _
      exact absurd (by omega) h100
  · rw [logic_plain_move WIDTH HEIGHT flag r1 r2 g hf hc hfruit, if_neg hfruit]
    by_cases h100 : g.score = 100
    · rw [if_pos h100]
      refine ⟨rfl, ⟨fun _ => h100, fun _ => rfl⟩, fun h => absurd h100 h, fun _ h => absurd h hfruit⟩
    · rw [if_neg h100]
      refine ⟨rfl, ⟨fun h => absurd (show (0 : Int) = -1 from h) (by decide),
        fun h => absurd h h100⟩, fun _ => rfl, ?_⟩
      intro _ h
      exact absurd h hfruit

/-- Scenario D: score 95, snake `[(5,5),(5,6)]` moving Right onto the fruit at
`(5,7)`: no collision, the score becomes 100 and `gameover` -1. -/
theorem logic_win_iff_witness :
    ((4 : Int) = 1 ∨ (4 : Int) = 2 ∨ (4 : Int) = 3 ∨ (4 : Int) = 4) ∧
    check_collision 20 20 (move_snake (ofList [⟨5, 5⟩, ⟨5, 6⟩]) 2 4) 2 = 0 ∧
    (logic 20 20 4 3 8 ⟨ofList [⟨5, 5⟩, ⟨5, 6⟩], 2, 0, 95, 5, 7⟩).2.score = 100 ∧
    (logic 20 20 4 3 8 ⟨ofList [⟨5, 5⟩, ⟨5, 6⟩], 2, 0, 95, 5, 7⟩).2.gameover = -1 :=
  have h := (logic_win_iff 20 20 4 3 8 ⟨ofList [⟨5, 5⟩, ⟨5, 6⟩], 2, 0, 95, 5, 7⟩
    (by decide) (by decide)).2.2.2 rfl (by decide)
  ⟨by decide, by decide, h.1, h.2⟩

/-- C8. `input` as a function of the current flag and the key codes `getch`
returns. An arrow key (ESC, `[`, then `A` Up 3, `B` Down 1, `C` Right 4,
`D` Left 2) sets the flag to its direction unless the current flag is the
opposite direction (Down for Up, Up for Down, Left for Right, Right for Left),
and then the flag stays; so Down (1) with an Up request stays Down.  With no
key, and with any keys that are not an arrow sequence and do not start with
`x` or `X`, the flag stays. -/
theorem input_reversal_guard (flag : Int) :
    (∀ rest, (input flag (27 :: 91 :: 65 :: rest)).1 = if flag = 1 then flag else 3) ∧
    (∀ rest, (input flag (27 :: 91 :: 66 :: rest)).1 = if flag = 3 then flag else 1) ∧
    (∀ rest, (input flag (27 :: 91 :: 67 :: rest)).1 = if flag = 2 then flag else 4) ∧
    (∀ rest, (input flag (27 :: 91 :: 68 :: rest)).1 = if flag = 4 then flag else 2) ∧
    (input 1 [27, 91, 65]).1 = 1 ∧
    (input flag []).1 = flag ∧
    (∀ keys,
      (¬ ∃ c rest, keys = 27 :: 91 :: c :: rest ∧ (c = 65 ∨ c = 66 ∨ c = 67 ∨ c = 68)) →
      (¬ ∃ c rest, keys = c :: rest ∧ (c = 120 ∨ c = 88)) →
      (input flag keys).1 = flag) := by
  refine ⟨?_, ?_, ?_, ?_, by decide, ?_, ?_⟩
  · intro rest; by_cases h : flag = 1 <;> simp [input, getch, h]
  · intro rest; by_cases h : flag = 3 <;> simp [input, getch, h]
  · intro rest; by_cases h : flag = 2 <;> simp [input, getch, h]
  · intro rest; by_cases h : flag = 4 <;> simp [input, getch, h]
  · simp [input, getch]
  · intro keys harrow hx
    match keys with
    | [] => simp [input, getch]
    | [c1] =>
      have h1 : ¬ (c1 = 120 ∨ c1 = 88) := fun h => hx ⟨c1, [], rfl, h⟩
      by_cases e1 : c1 = 27
      · subst e1; simp [input, getch]
      · simp [input, getch, e1, h1]
    | [c1, c2] =>
      have h1 : ¬ (c1 = 120 ∨ c1 = 88) := fun h => hx ⟨c1, [c2], rfl, h⟩
      by_cases e1 : c1 = 27
      · subst e1
        by_cases e2 : c2 = 91
        · subst e2; simp [input, getch]
        · simp [input, getch, e2]
      · simp [input, getch, e1, h1]
    | c1 :: c2 :: c3 :: rest =>
      have h1 : ¬ (c1 = 120 ∨ c1 = 88) := fun h => hx ⟨c1, c2 :: c3 :: rest, rfl, h⟩
      by_cases e1 : c1 = 27
      · subst e1
        by_cases e2 : c2 = 91
        · subst e2
          have h3 : ¬ (c3 = 65 ∨ c3 = 66 ∨ c3 = 67 ∨ c3 = 68) :=
            fun h => harrow ⟨c3, rest, rfl, h⟩
          have a : ¬ c3 = 65 := fun h => h3 (Or.inl h)
          have b : ¬ c3 = 66 := fun h => h3 (Or.inr (Or.inl h))
          have c : ¬ c3 = 67 := fun h => h3 (Or.inr (Or.inr (Or.inl h)))
          have d : ¬ c3 = 68 := fun h => h3 (Or.inr (Or.inr (Or.inr h)))
          simp [input, getch, a, b, c, d]
        · simp [input, getch, e2]
      · simp [input, getch, e1, h1]

/-- C8 on the key `a` (97) while moving Right, and on an Up request while
moving Down: the flag stays 4, and stays 1. -/
theorem input_reversal_guard_witness :
    (input 4 [97]).1 = 4 ∧ (input 1 [27, 91, 65]).1 = 1 :=
  ⟨(input_reversal_guard 4).2.2.2.2.2.2 [97]
      (by
        rintro ⟨c, rest, h, _⟩
        exact absurd (List.cons.inj h).1 (by decide))
      (by
        rintro ⟨c, rest, h, hc⟩
        have hc97 : (97 : Int) = c := (List.cons.inj h).1
        subst hc97
        rcases hc with h | h <;> exact absurd h (by decide)),
   (input_reversal_guard 1).2.2.2.2.1⟩

/-- C9, as stated, fails when the array is short. With `LENGTH_SNAKE = 2` on a
20 x 20 grid: the first fruit is at `(10,11)`, the player presses Right, the
snake eats it and the next fruit at `(10,12)` one pass later; the game is
still running (`gameover = 0`, score 10) and the length is 3, past the
capacity 2.  `grow_snake` at length 2 gives length 3: it has no capacity
check. -/
theorem main_loop_length_exceeds_capacity :
    (main_loop 20 20 [⟨[27, 91, 67], 9, 11⟩] (main_init 20 20 9 10)).game.length = 2 ∧
    (main_loop 20 20 [⟨[27, 91, 67], 9, 11⟩] (main_init 20 20 9 10)).game.gameover = 0 ∧
    (main_loop 20 20 [⟨[27, 91, 67], 9, 11⟩, ⟨[], 3, 3⟩]
      (main_init 20 20 9 10)).game.gameover = 0 ∧
    (main_loop 20 20 [⟨[27, 91, 67], 9, 11⟩, ⟨[], 3, 3⟩]
      (main_init 20 20 9 10)).game.score = 10 ∧
    (main_loop 20 20 [⟨[27, 91, 67], 9, 11⟩, ⟨[], 3, 3⟩]
      (main_init 20 20 9 10)).game.length = 3 ∧
    ¬ ((main_loop 20 20 [⟨[27, 91, 67], 9, 11⟩, ⟨[], 3, 3⟩]
      (main_init 20 20 9 10)).game.length ≤ 2) ∧
    (logic_ticks 20 20 [(4, 9, 11), (4, 3, 3)] (main_init 20 20 9 10).game).gameover = 0 ∧
    ¬ ((logic_ticks 20 20 [(4, 9, 11), (4, 3, 3)] (main_init 20 20 9 10).game).length ≤ 2) ∧
    (grow_snake 20 20 3 3 ⟨ofList [⟨10, 11⟩, ⟨10, 12⟩], 2, 0, 5, 10, 12⟩).length = 3 := by
  decide

/-- C9, amended. From the initial state of `main` (length 1, score 0,
`gameover` 0), for every sequence of direction flags and values of `rand()`,
and for every run of the loop of `main` on typed keys, the length after the
passes satisfies `1 <= length <= 21`: it is `1 + score / 5` with
`score <= 100`, and at most 20 while the game is running; so
`1 <= length <= LENGTH_SNAKE` whenever `LENGTH_SNAKE >= 21`.  `grow_snake`
itself never refuses: it always adds 1 to the length. -/
theorem main_loop_length_bounded (WIDTH HEIGHT LENGTH_SNAKE r1 r2 : Int)
    (hcap : 21 ≤ LENGTH_SNAKE) :
    (∀ flags : List (Int × Int × Int),
      1 ≤ (logic_ticks WIDTH HEIGHT flags (main_init WIDTH HEIGHT r1 r2).game).length ∧
      (logic_ticks WIDTH HEIGHT flags (main_init WIDTH HEIGHT r1 r2).game).length ≤ 21 ∧
      (logic_ticks WIDTH HEIGHT flags (main_init WIDTH HEIGHT r1 r2).game).length
        ≤ LENGTH_SNAKE ∧
      5 * ((logic_ticks WIDTH HEIGHT flags (main_init WIDTH HEIGHT r1 r2).game).length - 1) =
        (logic_ticks WIDTH HEIGHT flags (main_init WIDTH HEIGHT r1 r2).game).score ∧
      (logic_ticks WIDTH HEIGHT flags (main_init WIDTH HEIGHT r1 r2).game).score ≤ 100 ∧
      ((logic_ticks WIDTH HEIGHT flags (main_init WIDTH HEIGHT r1 r2).game).gameover = 0 →
        (logic_ticks WIDTH HEIGHT flags (main_init WIDTH HEIGHT r1 r2).game).length ≤ 20)) ∧
    (∀ ticks : List Tick,
      1 ≤ (main_loop WIDTH HEIGHT ticks (main_init WIDTH HEIGHT r1 r2)).game.length ∧
      (main_loop WIDTH HEIGHT ticks (main_init WIDTH HEIGHT r1 r2)).game.length ≤ 21 ∧
      (main_loop WIDTH HEIGHT ticks (main_init WIDTH HEIGHT r1 r2)).game.length
        ≤ LENGTH_SNAKE ∧
      5 * ((main_loop WIDTH HEIGHT ticks (main_init WIDTH HEIGHT r1 r2)).game.length - 1) =
        (main_loop WIDTH HEIGHT ticks (main_init WIDTH HEIGHT r1 r2)).game.score ∧
      (main_loop WIDTH HEIGHT ticks (main_init WIDTH HEIGHT r1 r2)).game.score ≤ 100 ∧
      ((main_loop WIDTH HEIGHT ticks (main_init WIDTH HEIGHT r1 r2)).game.gameover = 0 →
        (main_loop WIDTH HEIGHT ticks (main_init WIDTH HEIGHT r1 r2)).game.length ≤ 20)) ∧
    (∀ (a b : Int) (g : Game), (grow_snake WIDTH HEIGHT a b g).length = g.length + 1) := by
  refine ⟨?_, ?_, fun _ _ _ => rfl⟩
  · intro flags
    obtain ⟨hl, hs, hle, hne⟩ :=
      logic_ticks_keeps_count WIDTH HEIGHT flags (main_init WIDTH HEIGHT r1 r2).game
        (main_init_count WIDTH HEIGHT r1 r2)
    refine ⟨hl, by omega, by omega, hs, hle, ?_⟩
    intro hrun
    have := hne hrun
    omega
  · intro ticks
    obtain ⟨hl, hs, hle, hne⟩ :=
      main_loop_keeps_count WIDTH HEIGHT ticks (main_init WIDTH HEIGHT r1 r2)
        (main_init_count WIDTH HEIGHT r1 r2)
    refine ⟨hl, by omega, by omega, hs, hle, ?_⟩
    intro hrun
    have := hne hrun
    omega

/-- The amended C9 with `LENGTH_SNAKE = 100` on the run that eats two fruits:
the length is 3. -/
theorem main_loop_length_bounded_witness :
    (21 : Int) ≤ 100 ∧
    (main_loop 20 20 [⟨[27, 91, 67], 9, 11⟩, ⟨[], 3, 3⟩]
      (main_init 20 20 9 10)).game.length = 3 ∧
    (main_loop 20 20 [⟨[27, 91, 67], 9, 11⟩, ⟨[], 3, 3⟩]
      (main_init 20 20 9 10)).game.length ≤ 100 :=
  ⟨by decide, by decide,
   ((main_loop_length_bounded 20 20 100 9 10 (by decide)).2.1
      [⟨[27, 91, 67], 9, 11⟩, ⟨[], 3, 3⟩]).2.2.1⟩

/-- C10. A call of `logic` changes `score`, `length`, `fruitx` and `fruity`
only by growing: when the flag is 0, or the moved snake collides, or the moved
head is off the fruit, the four are what they were; and with flag 0 the whole
state, array and `gameover` included, is what it was. -/
theorem logic_frame (WIDTH HEIGHT flag r1 r2 : Int) (g : Game) :
    ((flag = 0 ∨
        check_collision WIDTH HEIGHT (move_snake g.snake g.length flag) g.length ≠ 0 ∨
        ¬ ((move_snake g.snake g.length flag (g.length - 1)).x = g.fruitx ∧
            (move_snake g.snake g.length flag (g.length - 1)).y = g.fruity)) →
      (logic WIDTH HEIGHT flag r1 r2 g).2.score = g.score ∧
      (logic WIDTH HEIGHT flag r1 r2 g).2.length = g.length ∧
      (logic WIDTH HEIGHT flag r1 r2 g).2.fruitx = g.fruitx ∧
      (logic WIDTH HEIGHT flag r1 r2 g).2.fruity = g.fruity) ∧
    (flag = 0 →
      (logic WIDTH HEIGHT flag r1 r2 g).2 = g ∧
      (∀ i, (logic WIDTH HEIGHT flag r1 r2 g).2.snake i = g.snake i) ∧
      (logic WIDTH HEIGHT flag r1 r2 g).2.gameover = g.gameover) := by
  constructor
  · intro h
    by_cases hf : flag = 0
    · subst hf
      rw [logic_flag_zero]
      exact ⟨rfl, rfl, rfl, rfl⟩
    · by_cases hc :
        check_collision WIDTH HEIGHT (move_snake g.snake g.length flag) g.length = 0
      · have hfruit : ¬ ((move_snake g.snake g.length flag (g.length - 1)).x = g.fruitx ∧
            (move_snake g.snake g.length flag (g.length - 1)).y = g.fruity) := by
          rcases h with h | h | h
          · exact absurd h hf
          · exact absurd hc h
          · exact h
        rw [logic_plain_move WIDTH HEIGHT flag r1 r2 g hf hc hfruit]
        split_ifs <;> exact ⟨rfl, rfl, rfl, rfl⟩
      · rw [logic_collision WIDTH HEIGHT flag r1 r2 g hf hc]
        exact ⟨rfl, rfl, rfl, rfl⟩
  · intro hf
    subst hf
    rw [logic_flag_zero]
    exact ⟨rfl, fun _ => rfl, rfl⟩

/-- C10 at a collision: the snake `[(5,1)]` moving Left reaches column 0, the
call ends with `gameover = 2` and score, length and fruit as before. -/
theorem logic_frame_witness :
    check_collision 20 20 (move_snake (ofList [⟨5, 1⟩]) 1 2) 1 ≠ 0 ∧
    (logic 20 20 2 0 0 ⟨ofList [⟨5, 1⟩], 1, 0, 35, 5, 0⟩).2.score = 35 ∧
    (logic 20 20 2 0 0 ⟨ofList [⟨5, 1⟩], 1, 0, 35, 5, 0⟩).2.length = 1 ∧
    (logic 20 20 2 0 0 ⟨ofList [⟨5, 1⟩], 1, 0, 35, 5, 0⟩).2.fruitx = 5 ∧
    (logic 20 20 2 0 0 ⟨ofList [⟨5, 1⟩], 1, 0, 35, 5, 0⟩).2.fruity = 0 ∧
    (logic 20 20 2 0 0 ⟨ofList [⟨5, 1⟩], 1, 0, 35, 5, 0⟩).2.gameover = 2 :=
  have h := (logic_frame 20 20 2 0 0 ⟨ofList [⟨5, 1⟩], 1, 0, 35, 5, 0⟩).1
    (Or.inr (Or.inl (by decide)))
  ⟨by decide, h.1, h.2.1, h.2.2.1, h.2.2.2, by decide⟩

end Snake
